import Mathlib

/-!
Verification of the gripandreview-online-bot fetch/search core.

A shallow embedding of the fetch and search core of the repository
(`yt_fetcher_online.py`, `yt_search_online.py`, plus the batch loops of
`app_gripandreview_online.py`), together with theorems settling the frozen
claims C1-C10 about it.

Modelling conventions:
* Python exceptions become `Except String` results; an uncaught exception is
  an `.error`, a normal return an `.ok`.
* Network collaborators (the transcript providers, the search API, the
  comment extractor) are passed in as explicit environment values describing
  the one response each call would observe; the embedded functions translate
  the Python control flow over those responses.
* Python `dict`s keyed by URL become association lists with Python's
  insertion semantics (an existing key keeps its position, its value is
  replaced; a new key is appended).
* Streamlit progress reports (`st.progress(x)`) are collected in a list of
  rationals, in the order they are issued.
-/

namespace GripReview

/-! ## VideoIdExtractor (`yt_fetcher_online.py`, lines 22-28) -/

/-- Character class `[0-9A-Za-z_-]` of the video-ID pattern in
`extract_video_id`. -/
def isIdChar (c : Char) : Bool :=
  c.isAlphanum || c = '_' || c = '-'

/-- The capture group `([0-9A-Za-z_-]{11})`: succeeds exactly when the list
starts with eleven id-class characters, returning those eleven characters
(the trailing `.*` of the pattern matches anything, capturing nothing). -/
def grab11 : List Char → Option (List Char)
  | c1 :: c2 :: c3 :: c4 :: c5 :: c6 :: c7 :: c8 :: c9 :: c10 :: c11 :: _ =>
    let ids := [c1, c2, c3, c4, c5, c6, c7, c8, c9, c10, c11]
    if ids.all isIdChar then some ids else none
  | _ => none

/-- One attempt of the regex `(?:v=|\/)([0-9A-Za-z_-]{11}).*` anchored at a
single start position: the alternation first tries the literal `v=`, then a
single `/`, and on a hit the capture group must match right after it. -/
def matchIdAt (l : List Char) : Option (List Char) :=
  match l with
  | [] => none
  | c :: rest =>
    if c = 'v' then
      match rest with
      | c2 :: rest2 => if c2 = '=' then grab11 rest2 else none
      | [] => none
    else if c = '/' then grab11 rest
    else none

/-- Semantics of `re.search`: try every start position from the left and return
the capture of the first position where the pattern matches. -/
def scanForId : List Char → Option (List Char)
  | [] => none
  | c :: rest =>
    match matchIdAt (c :: rest) with
    | some r => some r
    | none => scanForId rest

/-- Function `extract_video_id(url)`: search the URL for
`(?:v=|\/)([0-9A-Za-z_-]{11}).*` and return the capture group; raise
`ValueError("Tidak dapat menemukan video ID dari URL.")` when there is no
match. -/
def extract_video_id (url : String) : Except String String :=
  match scanForId url.data with
  | some vid => .ok ⟨vid⟩
  | none => .error ("Tidak dapat menemukan video ID dari URL.")

/-! ## TranscriptFetcher (`yt_fetcher_online.py`, lines 34-84)

The three provider tiers are modelled by the single response each network
call would produce for the requested video. -/

/-- Outcome of `YouTubeTranscriptApi.get_transcript(video_id, languages=...)`:
either the list of caption-segment `text` fields, or one of the exceptions
the Python code distinguishes (`TranscriptsDisabled`, `NoTranscriptFound`,
anything else). -/
inductive PrimaryOutcome where
  | success (segments : List String)
  | transcriptsDisabled
  | noTranscriptFound
  | otherError
deriving DecidableEq

/-- Outcome of the NoteGPT proxy call
`requests.get("https://notegpt.io/api/yt/transcript?url=...")`: a response
with its status code and the optional `text` field of its JSON body, or a
raised exception (network failure, timeout, non-JSON body). -/
inductive ProxyOutcome where
  | response (statusCode : Nat) (textField : Option String)
  | failure
deriving DecidableEq

/-- Outcome of the oEmbed call
`requests.get("https://www.youtube.com/oembed?url=...&format=json")`: the
optional `title` and `author_name` fields of the JSON body, or a raised
exception. -/
inductive OembedOutcome where
  | response (title : Option String) (authorName : Option String)
  | failure
deriving DecidableEq

/-- The responses the three tiers would observe for one video. -/
structure TranscriptEnv where
  primary : PrimaryOutcome
  proxy : ProxyOutcome
  oembed : OembedOutcome
deriving DecidableEq

/-- Translation of `" ".join([t["text"] for t in transcript_data if t["text"].strip()])`:
drop the segments that are blank after stripping, join the surviving
(unstripped) segment texts with single spaces. -/
def joinSegments (segments : List String) : String :=
  String.intercalate (" ") (segments.filter fun t => t.trim != "")

/-- Fallback 2 (`yt_fetcher_online.py`, lines 75-84): on an oEmbed response
return `meta.get("title", "") + " - " + meta.get("author_name", "")`; on an
exception return `""`. -/
def oembedFallback (env : TranscriptEnv) : String :=
  match env.oembed with
  | .response title authorName => title.getD ("") ++ " - " ++ authorName.getD ("")
  | .failure => ""

/-- Fallback 1 (`yt_fetcher_online.py`, lines 62-70): return the JSON `text`
field when the proxy answers with status 200 and the field is present;
otherwise (other status, missing field, or a raised exception) fall through
to fallback 2. -/
def proxyFallback (env : TranscriptEnv) : String :=
  match env.proxy with
  | .response statusCode textField =>
    if statusCode = 200 then
      match textField with
      | some text => text
      | none => oembedFallback env
    else oembedFallback env
  | .failure => oembedFallback env

/-- Function `fetch_transcript_online(video_url, ...)`: extract the video ID (a
`ValueError` here propagates to the caller), then try the primary provider;
every primary exception (`TranscriptsDisabled`, `NoTranscriptFound`, or any
other) falls through to the NoteGPT proxy and then to the oEmbed metadata
fallback.  The language priority list only parametrises the primary
provider's network call, which the environment already describes. -/
def fetch_transcript_online (env : TranscriptEnv) (videoUrl : String) :
    Except String String :=
  match extract_video_id videoUrl with
  | .error e => .error e
  | .ok _ =>
    match env.primary with
    | .success segments => .ok (joinSegments segments)
    | _ => .ok (proxyFallback env)

/-! ## Video records and the batch loop
(`yt_search_online.py` lines 60-68, `yt_fetcher_online.py` lines 100-123) -/

/-- One entry of the list built by `search_youtube_online` (the dict with
keys `judul`, `channel`, `upload_date`, `views`, `comment_count`, `url`,
`subtitle`).  View and comment counts are naturals: the YouTube statistics
API serialises unsigned counters and `int(...)` parses them back. -/
structure VideoRecord where
  judul : String
  channel : String
  upload_date : String
  views : Nat
  comment_count : Nat
  url : String
  subtitle : String
deriving DecidableEq

/-- Python `dict` insertion: an existing key keeps its position and gets the
new value; a fresh key is appended at the end. -/
def dictInsert (d : List (String × String)) (k v : String) :
    List (String × String) :=
  if d.any fun p => p.1 == k then
    d.map fun p => if p.1 == k then (k, v) else p
  else d ++ [(k, v)]

/-- What one call to `fetch_multiple_transcripts` produces: the
`transcripts` dict it returns and the sequence of fractions passed to
`progress.progress(...)`, in order. -/
structure BatchResult where
  transcripts : List (String × String)
  progress : List ℚ
deriving DecidableEq

/-- The `for idx, video in enumerate(videos[:limit])` loop of
`fetch_multiple_transcripts`: fetch the transcript (an exception here —
i.e. a `ValueError` from `extract_video_id` — propagates and aborts the
loop), record it under `video["url"]`, report `(idx + 1) / limit`. -/
def batchLoop (envFor : String → TranscriptEnv) (limit : Nat) :
    List VideoRecord → Nat → BatchResult → Except String BatchResult
  | [], _, acc => .ok acc
  | video :: rest, idx, acc =>
    match fetch_transcript_online (envFor video.url) video.url with
    | .error e => .error e
    | .ok text =>
      batchLoop envFor limit rest (idx + 1)
        ⟨dictInsert acc.transcripts video.url text,
         acc.progress ++ [((idx : ℚ) + 1) / (limit : ℚ)]⟩

/-- Function `fetch_multiple_transcripts(videos, limit=10, ...)`: an empty video list
returns `{}` at once (no progress bar is driven); otherwise the loop above
runs over `videos[:limit]` starting from an empty dict. -/
def fetch_multiple_transcripts (envFor : String → TranscriptEnv)
    (videos : List VideoRecord) (limit : Nat) : Except String BatchResult :=
  if videos.isEmpty then .ok ⟨[], []⟩
  else batchLoop envFor limit (videos.take limit) 0 ⟨[], []⟩

/-! ## VideoSearchClient (`yt_search_online.py`, lines 27-70) -/

/-- One item of the search response (`item["id"]["videoId"]` and the
`snippet` fields the code reads). -/
structure SearchItem where
  videoId : String
  title : String
  channelTitle : String
  description : String
  publishedAt : String
deriving DecidableEq

/-- The `statistics` object of one `videos().list` response item; either
counter may be absent from the JSON. -/
structure VideoStatistics where
  viewCount : Option Nat
  commentCount : Option Nat
deriving DecidableEq

/-- The responses the search call would observe: the item list of the one
`search().list` request, and per video ID the `statistics` object of the
follow-up `videos().list` request — `none` models an empty `items` list
there, where `stats_res["items"][0]` raises. -/
structure SearchEnv where
  items : String → Nat → List SearchItem
  statistics : String → Option VideoStatistics

/-- The dict appended for one hit (`yt_search_online.py`, lines 60-68):
`publishedAt.split("T")[0]` for the date, `int(stats.get(..., 0))` for the
counters, the canonical watch URL, and the `"❌"` subtitle placeholder. -/
def buildRecord (item : SearchItem) (stats : VideoStatistics) : VideoRecord where
  judul := item.title
  channel := item.channelTitle
  upload_date := (item.publishedAt.splitOn ("T")).headD ("")
  views := stats.viewCount.getD 0
  comment_count := stats.commentCount.getD 0
  url := "https://www.youtube.com/watch?v=" ++ item.videoId
  subtitle := "❌"

/-- The `for item in response.get("items", [])` loop: each hit triggers a
statistics lookup; `stats_res["items"][0]` on an empty list raises an
`IndexError` that aborts the whole search (partial results are lost). -/
def searchLoop (env : SearchEnv) : List SearchItem → Except String (List VideoRecord)
  | [] => .ok []
  | item :: rest =>
    match env.statistics item.videoId with
    | none => .error ("list index out of range")
    | some stats =>
      match searchLoop env rest with
      | .ok records => .ok (buildRecord item stats :: records)
      | .error e => .error e

/-- Function `search_youtube_online(query, max_results=10)`: raise a `RuntimeError`
when no API key is configured, otherwise issue the search request and build
one record per returned item.  There is no validation of `query` — a blank
keyword is passed to the provider unchanged. -/
def search_youtube_online (apiKey : Option String) (env : SearchEnv)
    (query : String) (maxResults : Nat) : Except String (List VideoRecord) :=
  match apiKey with
  | none => .error ("❌ YOUTUBE_API_KEY tidak ditemukan di secrets/config.py")
  | some _ => searchLoop env (env.items query maxResults)

/-! ## CommentFetcher (`yt_search_online.py`, lines 77-102) -/

/-- One raw comment dict as returned by `yt_dlp` (`c.get("text", "")`,
`c.get("author", "Anonim")`): either field may be absent. -/
structure RawComment where
  text : Option String
  author : Option String
deriving DecidableEq

/-- Outcome of `ydl.extract_info(video_url, download=False)`: the
`info.get("comments", [])` list (an absent field is the empty list), or a
raised exception. -/
inductive CommentProviderOutcome where
  | info (comments : List RawComment)
  | failure
deriving DecidableEq

/-- Function `fetch_comments_online(video_url, max_comments=100)`: on a provider
exception return the (still empty) accumulator; otherwise walk
`comments[:max_comments]`, strip each text, keep only non-blank ones, and
render `f"{author}: {text}"` with author defaulting to `"Anonim"`. -/
def fetch_comments_online (outcome : CommentProviderOutcome)
    (maxComments : Nat) : List String :=
  match outcome with
  | .failure => []
  | .info comments =>
    (comments.take maxComments).filterMap fun c =>
      let text := (c.text.getD ("")).trim
      let author := c.author.getD ("Anonim")
      if text != "" then some (author ++ ": " ++ text) else none

/-! ## SessionState (`yt_search_online.py`, lines 109-117) -/

/-- The slices of `st.session_state` the core touches; `none` means the key
is absent. -/
structure SessionState where
  videos : Option (List VideoRecord)
  transcripts : Option (List (String × String))
  comments : Option (List (String × List String))
deriving DecidableEq

/-- Function `save_results_to_session(videos, comments_dict=None)`: store the video
list only when the `videos` key is absent; store `comments_dict` only when
it is truthy (not `None` and not an empty dict). -/
def save_results_to_session (sess : SessionState) (videos : List VideoRecord)
    (comments_dict : Option (List (String × List String))) : SessionState :=
  let s1 := if sess.videos = none then
    { sess with videos := some videos } else sess
  match comments_dict with
  | some cd => if cd ≠ [] then { s1 with comments := some cd } else s1
  | none => s1

/-! ## Concrete sample data used by counterexamples and witnesses -/

/-- Predicate of the spec's "proxy tier fails": the request raised, the
status was not 200, or the JSON body had no `text` field. -/
def proxyTierFails : ProxyOutcome → Prop
  | .response statusCode textField => statusCode ≠ 200 ∨ textField = none
  | .failure => True

/-- Transcript environment in which all three provider tiers fail. -/
def envAllFail : TranscriptEnv := ⟨.otherError, .failure, .failure⟩

/-- Environment assignment for batch runs: every URL sees `envAllFail`. -/
def envAllFailFor : String → TranscriptEnv := fun _ => envAllFail

/-- A search-style record holding a given URL. -/
def mkVid (u : String) : VideoRecord :=
  ⟨"judul", "channel", "2024-01-01", 0, 0, u, "❌"⟩

/-- A record with a well-formed watch URL (video ID `aaaaaaaaaaa`). -/
def vidA : VideoRecord := mkVid ("https://www.youtube.com/watch?v=aaaaaaaaaaa")

/-- A record with a well-formed watch URL (video ID `ccccccccccc`). -/
def vidC : VideoRecord := mkVid ("https://www.youtube.com/watch?v=ccccccccccc")

/-- A record whose URL contains no extractable video ID. -/
def vidBad : VideoRecord := mkVid ("not a url")

/-- Another record whose URL contains no extractable video ID. -/
def vidBad2 : VideoRecord := mkVid ("???")

/-! ## Lemmas about the video-ID extractor -/

theorem matchIdAt_nil : matchIdAt [] = none := rfl

-- Scan completeness: when no start position matches, the scan fails.
theorem scanForId_eq_none (l : List Char) (h : ∀ i, matchIdAt (l.drop i) = none) :
    scanForId l = none := by
  induction l with
  | nil => rfl
  | cons c rest ih =>
    have h0 := h 0
    simp only [List.drop_zero] at h0
    simp only [scanForId, h0]
    exact ih fun i => h (i + 1)

-- The bounded no-match hypothesis suffices: past the end of the list every
-- position trivially fails.
theorem extract_error_of_no_match (url : String)
    (h : ∀ i ≤ url.data.length, matchIdAt (url.data.drop i) = none) :
    extract_video_id url = .error ("Tidak dapat menemukan video ID dari URL.") := by
  have hall : ∀ i, matchIdAt (url.data.drop i) = none := by
    intro i
    by_cases hi : i ≤ url.data.length
    · exact h i hi
    · have hd : url.data.drop i = [] := List.drop_eq_nil_of_le (by omega)
      rw [hd, matchIdAt_nil]
  unfold extract_video_id
  rw [scanForId_eq_none url.data hall]

-- On a canonical watch URL, the first position where the pattern matches is
-- the `v=`; the capture is exactly the eleven id characters after it.
theorem extract_watch_shape (c1 c2 c3 c4 c5 c6 c7 c8 c9 c10 c11 : Char)
    (rest : List Char)
    (h : [c1, c2, c3, c4, c5, c6, c7, c8, c9, c10, c11].all isIdChar) :
    extract_video_id
      ⟨"https://www.youtube.com/watch?v=".data ++
        (c1 :: c2 :: c3 :: c4 :: c5 :: c6 :: c7 :: c8 :: c9 :: c10 :: c11 :: rest)⟩ =
    .ok ⟨[c1, c2, c3, c4, c5, c6, c7, c8, c9, c10, c11]⟩ := by
  have hp : "https://www.youtube.com/watch?v=".data =
      ['h', 't', 't', 'p', 's', ':', '/', '/', 'w', 'w', 'w', '.', 'y', 'o', 'u', 't',
       'u', 'b', 'e', '.', 'c', 'o', 'm', '/', 'w', 'a', 't', 'c', 'h', '?', 'v', '='] := rfl
  rw [hp]
  simp only [List.all_cons, List.all_nil, Bool.and_eq_true, and_true] at h
  obtain ⟨h1, h2, h3, h4, h5, h6, h7, h8, h9, h10, h11⟩ := h
  simp +decide [extract_video_id, scanForId, matchIdAt, grab11,
    h1, h2, h3, h4, h5, h6, h7, h8, h9, h10, h11]

-- Same for the short-link shape, where the last `/` starts the match.
theorem extract_shortlink_shape (c1 c2 c3 c4 c5 c6 c7 c8 c9 c10 c11 : Char)
    (rest : List Char)
    (h : [c1, c2, c3, c4, c5, c6, c7, c8, c9, c10, c11].all isIdChar) :
    extract_video_id
      ⟨"https://youtu.be/".data ++
        (c1 :: c2 :: c3 :: c4 :: c5 :: c6 :: c7 :: c8 :: c9 :: c10 :: c11 :: rest)⟩ =
    .ok ⟨[c1, c2, c3, c4, c5, c6, c7, c8, c9, c10, c11]⟩ := by
  have hp : "https://youtu.be/".data =
      ['h', 't', 't', 'p', 's', ':', '/', '/', 'y', 'o', 'u', 't', 'u', '.', 'b', 'e', '/'] := rfl
  rw [hp]
  simp only [List.all_cons, List.all_nil, Bool.and_eq_true, and_true] at h
  obtain ⟨h1, h2, h3, h4, h5, h6, h7, h8, h9, h10, h11⟩ := h
  simp +decide [extract_video_id, scanForId, matchIdAt, grab11,
    h1, h2, h3, h4, h5, h6, h7, h8, h9, h10, h11]

/-- C9: for every valid watch-URL shape (`watch?v=<id>` or `youtu.be/<id>`,
with any trailing characters) containing an 11-character video token,
`extract_video_id` returns exactly that token; for every string in which no
position matches the token pattern, it raises the `ValueError` instead of
returning a value. -/
theorem C9_extract_video_id_contract :
    (∀ (c1 c2 c3 c4 c5 c6 c7 c8 c9 c10 c11 : Char) (rest : List Char),
      [c1, c2, c3, c4, c5, c6, c7, c8, c9, c10, c11].all isIdChar →
      extract_video_id
        ⟨"https://www.youtube.com/watch?v=".data ++
          (c1 :: c2 :: c3 :: c4 :: c5 :: c6 :: c7 :: c8 :: c9 :: c10 :: c11 :: rest)⟩ =
        .ok ⟨[c1, c2, c3, c4, c5, c6, c7, c8, c9, c10, c11]⟩ ∧
      extract_video_id
        ⟨"https://youtu.be/".data ++
          (c1 :: c2 :: c3 :: c4 :: c5 :: c6 :: c7 :: c8 :: c9 :: c10 :: c11 :: rest)⟩ =
        .ok ⟨[c1, c2, c3, c4, c5, c6, c7, c8, c9, c10, c11]⟩) ∧
    (∀ url : String,
      (∀ i ≤ url.data.length, matchIdAt (url.data.drop i) = none) →
      extract_video_id url = .error ("Tidak dapat menemukan video ID dari URL.")) := by
  constructor
  · intro c1 c2 c3 c4 c5 c6 c7 c8 c9 c10 c11 rest h
    exact ⟨extract_watch_shape c1 c2 c3 c4 c5 c6 c7 c8 c9 c10 c11 rest h,
      extract_shortlink_shape c1 c2 c3 c4 c5 c6 c7 c8 c9 c10 c11 rest h⟩
  · exact extract_error_of_no_match

/-- C9 witness: the contract applied to a concrete well-formed URL and a
concrete token-free string. -/
theorem C9_extract_video_id_witness :
    extract_video_id
      ⟨"https://www.youtube.com/watch?v=".data ++
        ('d' :: 'Q' :: 'w' :: '4' :: 'w' :: '9' :: 'W' :: 'g' :: 'X' :: 'c' :: 'Q' :: [])⟩ =
      .ok ⟨['d', 'Q', 'w', '4', 'w', '9', 'W', 'g', 'X', 'c', 'Q']⟩ ∧
    extract_video_id "not a url" = .error ("Tidak dapat menemukan video ID dari URL.") := by
  constructor
  · exact (C9_extract_video_id_contract.1 'd' 'Q' 'w' '4' 'w' '9' 'W' 'g' 'X' 'c' 'Q' []
      (by decide)).1
  · exact C9_extract_video_id_contract.2 "not a url" (by decide)

/-! ## Lemmas about the transcript fallback chain -/

-- When the ID extraction succeeds and the primary provider does not, the
-- call returns whatever the proxy-then-oembed fallback chain produces.
theorem fetch_eq_fallback (env : TranscriptEnv) (url vid : String)
    (hok : extract_video_id url = .ok vid)
    (hp : ∀ segments, env.primary ≠ .success segments) :
    fetch_transcript_online env url = .ok (proxyFallback env) := by
  unfold fetch_transcript_online
  rw [hok]
  cases hpr : env.primary with
  | success segments => exact absurd hpr (hp segments)
  | transcriptsDisabled => rfl
  | noTranscriptFound => rfl
  | otherError => rfl

theorem proxyFallback_of_fails (env : TranscriptEnv)
    (hfail : proxyTierFails env.proxy) :
    proxyFallback env = oembedFallback env := by
  unfold proxyFallback
  cases hpr : env.proxy with
  | response statusCode textField =>
    rw [hpr] at hfail
    rcases hfail with hcode | htext
    · simp [hcode]
    · subst htext
      by_cases hc : statusCode = 200 <;> simp [hc]
  | failure => rfl

/-- C2: for every URL with an extractable video ID, given that the primary
provider fails, (1) a proxy response with status 200 and a `text` field
makes `fetch_transcript_online` return exactly that `text`; (2) if the
proxy tier also fails and the oEmbed call returns a title and author, it
returns exactly `"<title> - <author>"`; (3) if all three tiers fail, it
returns the empty string. -/
theorem C2_fallback_chain_order (env : TranscriptEnv) (url vid : String)
    (hok : extract_video_id url = .ok vid)
    (hp : ∀ segments, env.primary ≠ .success segments) :
    (∀ text, env.proxy = .response 200 (some text) →
      fetch_transcript_online env url = .ok text) ∧
    (∀ title author, proxyTierFails env.proxy →
      env.oembed = .response (some title) (some author) →
      fetch_transcript_online env url = .ok (title ++ " - " ++ author)) ∧
    (proxyTierFails env.proxy → env.oembed = .failure →
      fetch_transcript_online env url = .ok ("")) := by
  refine ⟨?_, ?_, ?_⟩
  · intro text hproxy
    rw [fetch_eq_fallback env url vid hok hp]
    simp [proxyFallback, hproxy]
  · intro title author hfail hoe
    rw [fetch_eq_fallback env url vid hok hp, proxyFallback_of_fails env hfail]
    simp [oembedFallback, hoe]
  · intro hfail hoe
    rw [fetch_eq_fallback env url vid hok hp, proxyFallback_of_fails env hfail]
    simp [oembedFallback, hoe]

/-- C2 witness: a concrete run of each of the three tiers. -/
theorem C2_fallback_chain_witness :
    fetch_transcript_online ⟨.otherError, .response 200 (some ("proxy text")), .failure⟩
      "https://www.youtube.com/watch?v=dQw4w9WgXcQ" = .ok ("proxy text") ∧
    fetch_transcript_online ⟨.otherError, .failure, .response (some ("Judul")) (some ("Kanal"))⟩
      "https://www.youtube.com/watch?v=dQw4w9WgXcQ" = .ok ("Judul - Kanal") ∧
    fetch_transcript_online envAllFail
      "https://www.youtube.com/watch?v=dQw4w9WgXcQ" = .ok ("") := by
  refine ⟨?_, ?_, ?_⟩
  · exact (C2_fallback_chain_order ⟨.otherError, .response 200 (some ("proxy text")), .failure⟩
      "https://www.youtube.com/watch?v=dQw4w9WgXcQ" "dQw4w9WgXcQ" (by rfl)
      (by intro s h; simp at h)).1 "proxy text" rfl
  · exact (C2_fallback_chain_order ⟨.otherError, .failure, .response (some ("Judul")) (some ("Kanal"))⟩
      "https://www.youtube.com/watch?v=dQw4w9WgXcQ" "dQw4w9WgXcQ" (by rfl)
      (by intro s h; simp at h)).2.1 "Judul" "Kanal" trivial rfl
  · exact (C2_fallback_chain_order envAllFail
      "https://www.youtube.com/watch?v=dQw4w9WgXcQ" "dQw4w9WgXcQ" (by rfl)
      (by intro s h; simp [envAllFail] at h)).2.2 (by simp [envAllFail, proxyTierFails]) rfl

/-- C3: for every URL with an extractable video ID,
`fetch_transcript_online` returns a string and never raises, whatever the
three provider outcomes are — in particular, total provider exhaustion
yields the empty string; it raises exactly when the URL has no extractable
video ID, propagating the extractor's `ValueError`. -/
theorem C3_fetch_transcript_total (env : TranscriptEnv) (url : String) :
    (∀ vid, extract_video_id url = .ok vid →
      ∃ text, fetch_transcript_online env url = .ok text) ∧
    ((∀ segments, env.primary ≠ .success segments) → proxyTierFails env.proxy →
      env.oembed = .failure → ∀ vid, extract_video_id url = .ok vid →
      fetch_transcript_online env url = .ok ("")) ∧
    (∀ e, extract_video_id url = .error e →
      fetch_transcript_online env url = .error e) := by
  refine ⟨?_, ?_, ?_⟩
  · intro vid hok
    unfold fetch_transcript_online
    rw [hok]
    cases env.primary with
    | success segments => exact ⟨joinSegments segments, rfl⟩
    | transcriptsDisabled => exact ⟨proxyFallback env, rfl⟩
    | noTranscriptFound => exact ⟨proxyFallback env, rfl⟩
    | otherError => exact ⟨proxyFallback env, rfl⟩
  · intro hp hfail hoe vid hok
    rw [fetch_eq_fallback env url vid hok hp, proxyFallback_of_fails env hfail]
    simp [oembedFallback, hoe]
  · intro e herr
    unfold fetch_transcript_online
    rw [herr]

/-- C3 witness: a concrete total-exhaustion run and a concrete malformed
URL. -/
theorem C3_fetch_transcript_witness :
    fetch_transcript_online envAllFail "https://youtu.be/dQw4w9WgXcQ" = .ok ("") ∧
    fetch_transcript_online envAllFail "not a url" =
      .error ("Tidak dapat menemukan video ID dari URL.") := by
  constructor
  · exact (C3_fetch_transcript_total envAllFail "https://youtu.be/dQw4w9WgXcQ").2.1
      (by intro s h; simp [envAllFail] at h)
      (by simp [envAllFail, proxyTierFails]) rfl "dQw4w9WgXcQ" (by rfl)
  · exact (C3_fetch_transcript_total envAllFail "not a url").2.2
      "Tidak dapat menemukan video ID dari URL." (by rfl)

/-! ## Lemmas about the batch loop -/

-- A fetch whose URL has an extractable ID always returns normally.
theorem fetch_exists_ok (env : TranscriptEnv) (url vid : String)
    (hok : extract_video_id url = .ok vid) :
    ∃ text, fetch_transcript_online env url = .ok text := by
  unfold fetch_transcript_online
  rw [hok]
  cases env.primary with
  | success segments => exact ⟨joinSegments segments, rfl⟩
  | transcriptsDisabled => exact ⟨proxyFallback env, rfl⟩
  | noTranscriptFound => exact ⟨proxyFallback env, rfl⟩
  | otherError => exact ⟨proxyFallback env, rfl⟩

-- A fetch only raises by propagating the extractor's error.
theorem extract_error_of_fetch_error (env : TranscriptEnv) (url e : String)
    (h : fetch_transcript_online env url = .error e) :
    extract_video_id url = .error e := by
  unfold fetch_transcript_online at h
  cases hx : extract_video_id url with
  | error e2 =>
    rw [hx] at h
    cases h
    rfl
  | ok vid =>
    rw [hx] at h
    cases hpr : env.primary <;> rw [hpr] at h <;> exact Except.noConfusion h

-- Insertion into a Python dict adds exactly the inserted key to the key set.
theorem mem_keys_dictInsert (d : List (String × String)) (k v u : String) :
    u ∈ (dictInsert d k v).map Prod.fst ↔ u ∈ d.map Prod.fst ∨ u = k := by
  unfold dictInsert
  by_cases h : (d.any fun p => p.1 == k) = true
  · rw [if_pos h]
    have hk : k ∈ d.map Prod.fst := by
      obtain ⟨p, hp, hpk⟩ := List.any_eq_true.mp h
      exact List.mem_map.mpr ⟨p, hp, beq_iff_eq.mp hpk⟩
    have hmap : ((d.map fun p => if p.1 == k then (k, v) else p).map Prod.fst) =
        d.map Prod.fst := by
      rw [List.map_map]
      apply List.map_congr_left
      intro p _
      simp only [Function.comp_apply]
      by_cases hpk : p.1 = k
      · simp [hpk]
      · simp [hpk]
    rw [hmap]
    constructor
    · exact Or.inl
    · rintro (hu | rfl)
      · exact hu
      · exact hk
  · rw [if_neg h]
    simp [List.map_append]

-- Loop abortion: a malformed URL anywhere in the remaining items makes the
-- whole loop raise.
theorem batchLoop_error (envFor : String → TranscriptEnv) (limit : Nat) :
    ∀ (l : List VideoRecord) (idx : Nat) (acc : BatchResult),
      (∃ v ∈ l, ∃ e, extract_video_id v.url = .error e) →
      ∃ e, batchLoop envFor limit l idx acc = .error e := by
  intro l
  induction l with
  | nil =>
    intro idx acc h
    obtain ⟨v, hv, _⟩ := h
    exact absurd hv (List.not_mem_nil v)
  | cons video rest ih =>
    intro idx acc h
    cases hf : fetch_transcript_online (envFor video.url) video.url with
    | error e => exact ⟨e, by simp [batchLoop, hf]⟩
    | ok text =>
      obtain ⟨v, hv, e, he⟩ := h
      rcases List.mem_cons.mp hv with rfl | hvrest
      · exfalso
        have hfe : fetch_transcript_online (envFor v.url) v.url = .error e := by
          unfold fetch_transcript_online
          rw [he]
        rw [hf] at hfe
        exact Except.noConfusion hfe
      · obtain ⟨e2, he2⟩ := ih (idx + 1)
          ⟨dictInsert acc.transcripts video.url text,
           acc.progress ++ [((idx : ℚ) + 1) / (limit : ℚ)]⟩ ⟨v, hvrest, e, he⟩
        exact ⟨e2, by simp [batchLoop, hf, he2]⟩

-- Normal loop execution: with every URL extractable the loop returns a
-- result whose progress trace and key set are exactly determined.
theorem batchLoop_spec (envFor : String → TranscriptEnv) (limit : Nat) :
    ∀ (l : List VideoRecord) (idx : Nat) (acc : BatchResult),
      (∀ v ∈ l, ∃ vid, extract_video_id v.url = .ok vid) →
      ∃ r, batchLoop envFor limit l idx acc = .ok r ∧
        r.progress = acc.progress ++
          (List.range l.length).map (fun k => (((idx + k : Nat) : ℚ) + 1) / (limit : ℚ)) ∧
        (∀ u, u ∈ r.transcripts.map Prod.fst ↔
          u ∈ acc.transcripts.map Prod.fst ∨ u ∈ l.map VideoRecord.url) := by
  intro l
  induction l with
  | nil =>
    intro idx acc _
    exact ⟨acc, rfl, by simp, by simp⟩
  | cons video rest ih =>
    intro idx acc h
    obtain ⟨vid, hok⟩ := h video (List.mem_cons_self video rest)
    obtain ⟨text, hf⟩ := fetch_exists_ok (envFor video.url) video.url vid hok
    obtain ⟨r, hr, hprog, hkeys⟩ := ih (idx + 1)
      ⟨dictInsert acc.transcripts video.url text,
       acc.progress ++ [((idx : ℚ) + 1) / (limit : ℚ)]⟩
      (fun v hv => h v (List.mem_cons_of_mem video hv))
    refine ⟨r, by simp [batchLoop, hf, hr], ?_, ?_⟩
    · rw [hprog]
      dsimp only
      rw [List.append_assoc, List.singleton_append, List.length_cons,
        List.range_succ_eq_map, List.map_cons, List.map_map]
      apply congrArg (acc.progress ++ ·)
      rw [List.cons_eq_cons]
      refine ⟨by norm_num, ?_⟩
      apply List.map_congr_left
      intro k _
      simp only [Function.comp_apply]
      push_cast
      ring
    · intro u
      rw [hkeys u]
      dsimp only
      rw [mem_keys_dictInsert]
      simp only [List.map_cons, List.mem_cons]
      tauto

/-- C1 counterexample: over `[v1, v2, v3]` with v2's URL malformed, the
batch raises the extractor's `ValueError` instead of yielding a 3-entry
mapping — the extraction exception is not caught per item. -/
theorem C1_batch_counterexample :
    fetch_multiple_transcripts envAllFailFor [vidA, vidBad, vidC] 3 =
      .error ("Tidak dapat menemukan video ID dari URL.") := by rfl

/-- C1 (amended): the batch does not isolate video-ID-extraction failures:
a malformed URL among the first `min(limit, length)` items makes the whole
call raise the extractor's error, while a batch whose processed URLs all
carry extractable IDs runs to completion (provider-tier failures are
absorbed per item and never abort it). -/
theorem C1_batch_aborts_on_malformed (envFor : String → TranscriptEnv)
    (videos : List VideoRecord) (limit : Nat) :
    ((∃ v ∈ videos.take limit, ∃ e, extract_video_id v.url = .error e) →
      ∃ e, fetch_multiple_transcripts envFor videos limit = .error e) ∧
    ((∀ v ∈ videos.take limit, ∃ vid, extract_video_id v.url = .ok vid) →
      ∃ r, fetch_multiple_transcripts envFor videos limit = .ok r) := by
  constructor
  · intro h
    unfold fetch_multiple_transcripts
    by_cases hv : videos.isEmpty = true
    · rw [List.isEmpty_iff] at hv
      subst hv
      obtain ⟨v, hv', _⟩ := h
      simp at hv'
    · rw [if_neg hv]
      exact batchLoop_error envFor limit (videos.take limit) 0 ⟨[], []⟩ h
  · intro h
    unfold fetch_multiple_transcripts
    by_cases hv : videos.isEmpty = true
    · rw [if_pos hv]
      exact ⟨⟨[], []⟩, rfl⟩
    · rw [if_neg hv]
      obtain ⟨r, hr, -, -⟩ := batchLoop_spec envFor limit (videos.take limit) 0 ⟨[], []⟩ h
      exact ⟨r, hr⟩

/-- C1 witness: the amended theorem applied to a concrete malformed batch
and a concrete well-formed batch. -/
theorem C1_batch_witness :
    (∃ e, fetch_multiple_transcripts envAllFailFor [vidBad] 1 = .error e) ∧
    (∃ r, fetch_multiple_transcripts envAllFailFor [vidA] 1 = .ok r) := by
  constructor
  · exact (C1_batch_aborts_on_malformed envAllFailFor [vidBad] 1).1
      ⟨vidBad, by simp, "Tidak dapat menemukan video ID dari URL.", rfl⟩
  · exact (C1_batch_aborts_on_malformed envAllFailFor [vidA] 1).2
      (by intro v hv; simp at hv; subst hv; exact ⟨"aaaaaaaaaaa", rfl⟩)

-- The progress trace (k+1)/L for k = 0..n-1 is non-decreasing for any
-- non-negative denominator (division by zero is zero in ℚ).
theorem progress_trace_pairwise (n : Nat) (L : ℚ) (hL : 0 ≤ L) :
    (((List.range n).map fun (k : Nat) => ((k : ℚ) + 1) / L)).Pairwise (· ≤ ·) := by
  refine List.Pairwise.map _ ?_ (List.pairwise_lt_range n)
  intro a b hab
  rcases hL.eq_or_lt with hz | hpos
  · rw [← hz, div_zero, div_zero]
  · rw [div_le_div_iff_of_pos_right hpos]
    have hle : (a : ℚ) ≤ (b : ℚ) := by exact_mod_cast Nat.le_of_lt hab
    linarith

/-- C4 counterexample: one valid video with `limit = 10` — the claim demands
the single (N = 1) progress report to be `1/1 = 1`, but the code reports
`(idx + 1) / limit = 1/10` and the trace never reaches `1.0`. -/
theorem C4_progress_counterexample :
    fetch_multiple_transcripts envAllFailFor [vidA] 10 =
      .ok ⟨[("https://www.youtube.com/watch?v=aaaaaaaaaaa", "")], [(1 : ℚ) / 10]⟩ ∧
    (1 : ℚ) / 10 ≠ 1 := by
  constructor
  · have h1 : fetch_multiple_transcripts envAllFailFor [vidA] 10 =
        .ok ⟨[("https://www.youtube.com/watch?v=aaaaaaaaaaa", "")],
          [(((0 : ℕ) : ℚ) + 1) / (((10 : ℕ)) : ℚ)]⟩ := rfl
    rw [show (((0 : ℕ) : ℚ) + 1) / (((10 : ℕ)) : ℚ) = (1 : ℚ) / 10 from by norm_num] at h1
    exact h1
  · norm_num

/-- C4 (amended): for a processed batch of size `N = min(limit, length)`,
the k-th progress value is `k / limit` (not `k / N`): the trace is the
monotone sequence `(k+1)/limit` for `k = 0..N-1`, and it ends at exactly
`1.0` when `limit ≤ length` (so `N = limit > 0`), but not in general. -/
theorem C4_progress_formula (envFor : String → TranscriptEnv)
    (videos : List VideoRecord) (limit : Nat)
    (h : ∀ v ∈ videos.take limit, ∃ vid, extract_video_id v.url = .ok vid) :
    ∃ r, fetch_multiple_transcripts envFor videos limit = .ok r ∧
      r.progress = (List.range (min limit videos.length)).map
        (fun (k : Nat) => ((k : ℚ) + 1) / (limit : ℚ)) ∧
      r.progress.Pairwise (· ≤ ·) ∧
      (0 < limit → limit ≤ videos.length → r.progress.getLast? = some 1) := by
  by_cases hv : videos.isEmpty = true
  · rw [List.isEmpty_iff] at hv
    subst hv
    refine ⟨⟨[], []⟩, rfl, by simp, by simp, ?_⟩
    intro hpos hle
    simp at hle
    omega
  · obtain ⟨r, hr, hprog, -⟩ :=
      batchLoop_spec envFor limit (videos.take limit) 0 ⟨[], []⟩ h
    have hform : r.progress = (List.range (min limit videos.length)).map
        (fun (k : Nat) => ((k : ℚ) + 1) / (limit : ℚ)) := by
      rw [hprog]
      dsimp only
      rw [List.nil_append, List.length_take]
      apply List.map_congr_left
      intro k _
      norm_num
    refine ⟨r, ?_, hform, ?_, ?_⟩
    · unfold fetch_multiple_transcripts
      rw [if_neg hv]
      exact hr
    · rw [hform]
      exact progress_trace_pairwise (min limit videos.length) (limit : ℚ)
        (Nat.cast_nonneg limit)
    · intro hpos hle
      rw [hform, Nat.min_eq_left hle]
      obtain ⟨m, hm⟩ := Nat.exists_eq_add_of_lt hpos
      rw [Nat.zero_add] at hm
      subst hm
      rw [List.range_succ, List.map_append, List.map_cons, List.map_nil,
        List.getLast?_concat]
      have hnz : ((m : ℚ) + 1) ≠ 0 := by positivity
      have hcast : (((m + 1 : ℕ)) : ℚ) = (m : ℚ) + 1 := by push_cast; ring
      rw [hcast, div_self hnz]

/-- C4 witness: the amended formula applied to a concrete two-video batch
with `limit = 2`, whose trace is `[1/2, 1]`. -/
theorem C4_progress_witness :
    ∃ r, fetch_multiple_transcripts envAllFailFor [vidA, vidC] 2 = .ok r ∧
      r.progress = (List.range (min 2 2)).map
        (fun (k : Nat) => ((k : ℚ) + 1) / ((2 : ℕ) : ℚ)) ∧
      r.progress.Pairwise (· ≤ ·) ∧
      (0 < 2 → 2 ≤ 2 → r.progress.getLast? = some 1) := by
  have h : ∀ v ∈ ([vidA, vidC] : List VideoRecord).take 2,
      ∃ vid, extract_video_id v.url = .ok vid := by
    intro v hv
    simp [List.take] at hv
    rcases hv with rfl | rfl
    · exact ⟨"aaaaaaaaaaa", rfl⟩
    · exact ⟨"ccccccccccc", rfl⟩
  exact C4_progress_formula envAllFailFor [vidA, vidC] 2 h

/-- C6 counterexample: a batch containing a malformed URL returns no mapping
at all — the call raises instead, so not "every call returns a
partial-success mapping". -/
theorem C6_keyset_counterexample :
    fetch_multiple_transcripts envAllFailFor [vidA, vidBad2] 2 =
      .error ("Tidak dapat menemukan video ID dari URL.") := by rfl

/-- C6 (amended): every call whose first `min(limit, length)` items all
carry extractable video IDs returns a mapping whose key set is exactly the
URLs of those processed items — every processed item has an entry under its
URL (possibly with empty text) and no other key appears. -/
theorem C6_keyset_exact (envFor : String → TranscriptEnv)
    (videos : List VideoRecord) (limit : Nat)
    (h : ∀ v ∈ videos.take limit, ∃ vid, extract_video_id v.url = .ok vid) :
    ∃ r, fetch_multiple_transcripts envFor videos limit = .ok r ∧
      ∀ u, (u ∈ r.transcripts.map Prod.fst ↔
        u ∈ (videos.take limit).map VideoRecord.url) := by
  by_cases hv : videos.isEmpty = true
  · rw [List.isEmpty_iff] at hv
    subst hv
    exact ⟨⟨[], []⟩, rfl, by simp⟩
  · obtain ⟨r, hr, -, hkeys⟩ :=
      batchLoop_spec envFor limit (videos.take limit) 0 ⟨[], []⟩ h
    refine ⟨r, ?_, ?_⟩
    · unfold fetch_multiple_transcripts
      rw [if_neg hv]
      exact hr
    · intro u
      rw [hkeys u]
      simp

/-- C6 witness: the amended key-set theorem applied to a concrete batch. -/
theorem C6_keyset_witness :
    ∃ r, fetch_multiple_transcripts envAllFailFor [vidA] 1 = .ok r ∧
      ∀ u, (u ∈ r.transcripts.map Prod.fst ↔
        u ∈ (([vidA] : List VideoRecord).take 1).map VideoRecord.url) := by
  exact C6_keyset_exact envAllFailFor [vidA] 1
    (by intro v hv; simp at hv; subst hv; exact ⟨"aaaaaaaaaaa", rfl⟩)

/-! ## Lemmas about the search client, comment fetcher and session -/

/-- A search environment whose provider returns no items at all. -/
def emptySearchEnv : SearchEnv := ⟨fun _ _ => [], fun _ => none⟩

/-- A concrete search hit. -/
def itemX : SearchItem :=
  ⟨"abcdefghijk", "Judul Video", "Kanal", "deskripsi", "2024-01-01T00:00:00Z"⟩

/-- A search environment with one hit whose statistics response is empty. -/
def envNoStats : SearchEnv := ⟨fun _ _ => [itemX], fun _ => none⟩

/-- A search environment with one hit whose statistics object lacks both
counter fields. -/
def envBareStats : SearchEnv := ⟨fun _ _ => [itemX], fun _ => some ⟨none, none⟩⟩

-- When every hit has a statistics entry, the loop returns one record per
-- hit, built from that entry.
theorem searchLoop_spec (env : SearchEnv) :
    ∀ l : List SearchItem,
      (∀ item ∈ l, ∃ stats, env.statistics item.videoId = some stats) →
      searchLoop env l = .ok (l.map fun item =>
        buildRecord item ((env.statistics item.videoId).getD ⟨none, none⟩)) := by
  intro l
  induction l with
  | nil => intro _; rfl
  | cons item rest ih =>
    intro h
    obtain ⟨stats, hstats⟩ := h item (List.mem_cons_self item rest)
    have hrest := ih fun it hit => h it (List.mem_cons_of_mem item hit)
    simp only [searchLoop, hstats, hrest, List.map_cons, Option.getD_some]

/-- C5 counterexample: with an API key configured and a blank keyword, the
search does not fail with any error — it silently returns the provider's
(empty) result list. -/
theorem C5_blank_query_counterexample :
    search_youtube_online (some ("key")) emptySearchEnv ("") 5 = .ok [] := by rfl

/-- C5 (amended): `search_youtube_online` performs no blank-keyword
validation at all: with an API key it issues the request for the blank
keyword and returns the mapped provider results (an `.ok`, never an
`InvalidQueryError`); the only input validation it does is failing when the
API key is missing.  The blank-keyword check lives in the caller
(`app_gripandreview_online.py`, tab 1). -/
theorem C5_no_blank_query_check (env : SearchEnv) (n : Nat) (k : String)
    (h : ∀ item ∈ env.items ("") n, ∃ stats, env.statistics item.videoId = some stats) :
    search_youtube_online (some k) env ("") n =
      .ok ((env.items ("") n).map fun item =>
        buildRecord item ((env.statistics item.videoId).getD ⟨none, none⟩)) ∧
    search_youtube_online none env ("") n =
      .error ("❌ YOUTUBE_API_KEY tidak ditemukan di secrets/config.py") := by
  constructor
  · unfold search_youtube_online
    exact searchLoop_spec env (env.items ("") n) h
  · rfl

/-- C5 witness: the amended theorem applied to the empty-provider
environment. -/
theorem C5_blank_query_witness :
    search_youtube_online (some ("key")) emptySearchEnv ("") 3 =
      .ok ((emptySearchEnv.items ("") 3).map fun item =>
        buildRecord item ((emptySearchEnv.statistics item.videoId).getD ⟨none, none⟩)) ∧
    search_youtube_online none emptySearchEnv ("") 3 =
      .error ("❌ YOUTUBE_API_KEY tidak ditemukan di secrets/config.py") := by
  exact C5_no_blank_query_check emptySearchEnv 3 "key"
    (by intro item hit; simp [emptySearchEnv] at hit)

/-- C8 counterexample: a hit whose per-video statistics response is missing
(empty `items`) makes the whole search raise the `IndexError` — the record's
counts do not degrade to zero. -/
theorem C8_missing_stats_counterexample :
    search_youtube_online (some ("key")) envNoStats ("kw") 1 =
      .error ("list index out of range") := by rfl

/-- C8 (amended): when every hit has a statistics response, missing
`viewCount`/`commentCount` fields inside it coerce that record's counts to
zero (`int(stats.get(..., 0))`), and the counts — naturals parsed from the
API's unsigned counters — are never negative; but a missing statistics
response (empty `items`) aborts the whole search instead of degrading. -/
theorem C8_stats_field_coercion (k q : String) (env : SearchEnv) (n : Nat)
    (h : ∀ item ∈ env.items q n, ∃ stats, env.statistics item.videoId = some stats) :
    search_youtube_online (some k) env q n =
      .ok ((env.items q n).map fun item =>
        buildRecord item ((env.statistics item.videoId).getD ⟨none, none⟩)) ∧
    (∀ item, (buildRecord item ⟨none, none⟩).views = 0 ∧
      (buildRecord item ⟨none, none⟩).comment_count = 0) ∧
    (∀ item stats, (buildRecord item stats).views = stats.viewCount.getD 0 ∧
      (buildRecord item stats).comment_count = stats.commentCount.getD 0) := by
  refine ⟨?_, ?_, ?_⟩
  · unfold search_youtube_online
    exact searchLoop_spec env (env.items q n) h
  · intro item
    exact ⟨rfl, rfl⟩
  · intro item stats
    exact ⟨rfl, rfl⟩

/-- C8 witness: a concrete search whose only hit has a statistics object
with both counter fields absent — the search succeeds and the record's
counts are zero. -/
theorem C8_stats_field_witness :
    search_youtube_online (some ("key")) envBareStats ("kw") 1 =
      .ok ((envBareStats.items ("kw") 1).map fun item =>
        buildRecord item ((envBareStats.statistics item.videoId).getD ⟨none, none⟩)) ∧
    (buildRecord itemX ⟨none, none⟩).views = 0 := by
  constructor
  · exact (C8_stats_field_coercion "key" "kw" envBareStats 1
      (by intro item _; exact ⟨⟨none, none⟩, rfl⟩)).1
  · rfl

-- Filtering with a boolean test and rendering preserves the provider's
-- relative order: the output is a sublist of the rendered input.
theorem filterMap_ite_sublist (l : List RawComment) (p : RawComment → Bool)
    (g : RawComment → String) :
    (l.filterMap fun c => if p c then some (g c) else none).Sublist (l.map g) := by
  induction l with
  | nil => exact List.Sublist.refl []
  | cons c rest ih =>
    by_cases hc : p c = true
    · simp only [List.filterMap_cons, if_pos hc, List.map_cons]
      exact List.Sublist.cons₂ (g c) ih
    · simp only [List.filterMap_cons, if_neg hc, List.map_cons]
      exact List.Sublist.cons (g c) ih

/-- C7: `fetch_comments_online` returns an empty list (never raises) on any
provider failure; otherwise its output has length at most `maxComments`, is
a sublist of the rendered `comments[:maxComments]` (provider order
preserved), and every entry comes from a comment whose stripped text is
non-blank, rendered as `"<author>: <text>"` with the author defaulting to
`"Anonim"` when absent. -/
theorem C7_fetch_comments_contract (outcome : CommentProviderOutcome)
    (maxComments : Nat) :
    (outcome = .failure → fetch_comments_online outcome maxComments = []) ∧
    (fetch_comments_online outcome maxComments).length ≤ maxComments ∧
    (∀ comments, outcome = .info comments →
      (∀ s ∈ fetch_comments_online outcome maxComments,
        ∃ c ∈ comments.take maxComments, (c.text.getD ("")).trim ≠ "" ∧
          s = c.author.getD ("Anonim") ++ ": " ++ (c.text.getD ("")).trim) ∧
      (fetch_comments_online outcome maxComments).Sublist
        ((comments.take maxComments).map fun c =>
          c.author.getD ("Anonim") ++ ": " ++ (c.text.getD ("")).trim)) := by
  refine ⟨?_, ?_, ?_⟩
  · intro hout
    subst hout
    rfl
  · cases outcome with
    | failure => simp [fetch_comments_online]
    | info comments =>
      calc (fetch_comments_online (.info comments) maxComments).length
          ≤ (comments.take maxComments).length := List.length_filterMap_le _ _
        _ ≤ maxComments := List.length_take_le maxComments comments
  · intro comments hout
    subst hout
    constructor
    · intro s hs
      obtain ⟨c, hc, hsome⟩ := List.mem_filterMap.mp hs
      by_cases htext : ((c.text.getD ("")).trim != "") = true
      · refine ⟨c, hc, by simpa using htext, ?_⟩
        rw [if_pos htext] at hsome
        exact (Option.some.injEq _ _ ▸ hsome).symm
      · rw [if_neg htext] at hsome
        exact Option.noConfusion hsome
    · exact filterMap_ite_sublist (comments.take maxComments)
        (fun c => (c.text.getD ("")).trim != "")
        (fun c => c.author.getD ("Anonim") ++ ": " ++ (c.text.getD ("")).trim)

/-- C7 witness: the contract applied to a failing provider and to a
concrete comment list with a blank text and a missing author. -/
theorem C7_fetch_comments_witness :
    fetch_comments_online .failure 5 = [] ∧
    (fetch_comments_online
      (.info [⟨some (" halo "), none⟩, ⟨some ("  "), some ("Budi")⟩]) 5).length ≤ 5 := by
  constructor
  · exact (C7_fetch_comments_contract .failure 5).1 rfl
  · exact (C7_fetch_comments_contract
      (.info [⟨some (" halo "), none⟩, ⟨some ("  "), some ("Budi")⟩]) 5).2.1

/-- C10: `save_results_to_session` writes the `videos` key only when it is
absent (a second call with a different list leaves the stored list
unchanged), writes the `comments` key only when the passed dict is truthy
(passing `None` or an empty dict leaves any prior entry untouched), and
never touches the `transcripts` key. -/
theorem C10_save_results_frame (sess : SessionState) (videos : List VideoRecord)
    (comments_dict : Option (List (String × List String))) :
    (∀ v0, sess.videos = some v0 →
      (save_results_to_session sess videos comments_dict).videos = some v0) ∧
    (sess.videos = none →
      (save_results_to_session sess videos comments_dict).videos = some videos) ∧
    ((comments_dict = none ∨ comments_dict = some []) →
      (save_results_to_session sess videos comments_dict).comments = sess.comments) ∧
    (∀ cd, comments_dict = some cd → cd ≠ [] →
      (save_results_to_session sess videos comments_dict).comments = some cd) ∧
    (save_results_to_session sess videos comments_dict).transcripts =
      sess.transcripts := by
  unfold save_results_to_session
  refine ⟨?_, ?_, ?_, ?_, ?_⟩
  · intro v0 hv0
    have hne : sess.videos ≠ none := by rw [hv0]; exact Option.some_ne_none v0
    cases comments_dict with
    | none => simp [hne, hv0]
    | some cd =>
      by_cases hcd : cd = []
      · simp [hne, hv0, hcd]
      · simp [hne, hv0, hcd]
  · intro hnone
    cases comments_dict with
    | none => simp [hnone]
    | some cd =>
      by_cases hcd : cd = []
      · simp [hnone, hcd]
      · simp [hnone, hcd]
  · rintro (rfl | rfl)
    · by_cases hv : sess.videos = none <;> simp [hv]
    · by_cases hv : sess.videos = none <;> simp [hv]
  · rintro cd rfl hcd
    by_cases hv : sess.videos = none <;> simp [hv, hcd]
  · cases comments_dict with
    | none => by_cases hv : sess.videos = none <;> simp [hv]
    | some cd =>
      by_cases hcd : cd = []
      · by_cases hv : sess.videos = none <;> simp [hv, hcd]
      · by_cases hv : sess.videos = none <;> simp [hv, hcd]

/-- C10 witness: a session that already has videos and receives an empty
comments dict is left entirely unchanged. -/
theorem C10_save_results_witness :
    (save_results_to_session ⟨some [vidA], some [], some []⟩ [vidC] (some [])).videos =
      some [vidA] ∧
    (save_results_to_session ⟨some [vidA], some [], some []⟩ [vidC] (some [])).comments =
      some [] ∧
    (save_results_to_session ⟨some [vidA], some [], some []⟩ [vidC] (some [])).transcripts =
      some [] := by
  refine ⟨?_, ?_, ?_⟩
  · exact (C10_save_results_frame ⟨some [vidA], some [], some []⟩ [vidC] (some [])).1
      [vidA] rfl
  · exact (C10_save_results_frame ⟨some [vidA], some [], some []⟩ [vidC] (some [])).2.2.1
      (Or.inr rfl)
  · exact (C10_save_results_frame ⟨some [vidA], some [], some []⟩ [vidC] (some [])).2.2.2.2

end GripReview
